import Mathlib

/-!
Verification of the core of `src/YoutubeDownloader.py` (yt-dlp version):
the filename sanitizer, the per-video audio fetcher `download_video`, the
playlist resolver `get_playlist_videos`, and the orchestrator
`DownloaderWidget.download_thread` / `start_download`.

External effects (yt-dlp network calls, the filesystem, the process pool)
are modelled by explicit environments and event traces; the unordered
completion stream of `multiprocessing.Pool.imap_unordered` is modelled by
an arbitrary permutation of the per-video results.
-/

/-- The characters matched by the regex character class in
`re.sub(r'[\\/*?:"<>|]', "", name)` at `sanitize_filename`. -/
def reservedChars : List Char := ['\\', '/', '*', '?', ':', '"', '<', '>', '|']

/-- Whether a character is removed by the sanitizer's regex. -/
def reservedChar (c : Char) : Bool := reservedChars.contains c

/-- `re.sub(pattern, "", name)` for a single-character-class pattern:
scan the text left to right; every character matching the class is a
(one-character) match replaced by the empty string, every other character
is copied through. -/
def reSubRemove : List Char → List Char
  | [] => []
  | c :: cs => if reservedChar c then reSubRemove cs else c :: reSubRemove cs

/-- `sanitize_filename` from `src/YoutubeDownloader.py` (lines 113-115):
`return re.sub(r'[\\/*?:"<>|]', "", name)`. -/
def sanitize_filename (name : String) : String := ⟨reSubRemove name.data⟩


/-- Observable boundary events of `download_video`: the metadata lookup
`ydl.extract_info(video_url, download=False)` and the media download
`ydl.download([video_url])` (whose `FFmpegExtractAudio` postprocessor is
the only step that writes the filesystem). -/
inductive FetchEvent
  | metadataFetch (url : String)
  | streamDownload (url : String)
  deriving DecidableEq

/-- Whether an event downloads the media stream (and so writes files). -/
def isStreamDownload : FetchEvent → Bool
  | FetchEvent.streamDownload _ => true
  | FetchEvent.metadataFetch _ => false

/-- Environment seen by one `download_video` call: `extractInfo` either
raises (with a message) or returns the info dict, of which only the
optional `title` key is consumed; `fileExists` is `os.path.exists`;
`download` either raises or succeeds. -/
structure FetchEnv where
  extractInfo : String → Except String (Option String)
  fileExists : String → Bool
  download : String → Except String Unit

/-- The 5-tuple `(video_url, fmt, output_path, idx, total)` unpacked at
the top of `download_video`. -/
structure FetchArgs where
  video_url : String
  fmt : String
  output_path : String
  idx : Nat
  total : Nat
  deriving DecidableEq

/-- `os.path.join` for a relative second component (POSIX separator). -/
def ospathjoin (a b : String) : String := a ++ "/" ++ b

/-- The target path `os.path.join(output_path, f"{sanitized_title}.{fmt}")`
computed inside `download_video`. -/
def target_file (output_path title fmt : String) : String :=
  ospathjoin output_path (sanitize_filename title ++ "." ++ fmt)

/-- `download_video` from `src/YoutubeDownloader.py` (lines 118-155),
returning the result string together with the trace of boundary events.
The whole body runs inside `try/except Exception`, so an exception raised
by `extract_info` or `download` becomes the `"Error processing ..."`
string; `title = info.get('title', 'video')`. -/
def download_video (env : FetchEnv) (a : FetchArgs) : String × List FetchEvent :=
  match env.extractInfo a.video_url with
  | Except.error e =>
      ("Error processing " ++ a.video_url ++ " (" ++ toString a.idx ++ "/" ++
        toString a.total ++ "): " ++ e,
       [FetchEvent.metadataFetch a.video_url])
  | Except.ok titleOpt =>
      let title := titleOpt.getD "video"
      let target := target_file a.output_path title a.fmt
      if env.fileExists target then
        ("Skipped " ++ title ++ " " ++ toString a.idx ++ "/" ++ toString a.total,
         [FetchEvent.metadataFetch a.video_url])
      else
        match env.download a.video_url with
        | Except.ok _ =>
            ("Downloaded " ++ title ++ " " ++ toString a.idx ++ "/" ++ toString a.total,
             [FetchEvent.metadataFetch a.video_url, FetchEvent.streamDownload a.video_url])
        | Except.error e =>
            ("Error processing " ++ a.video_url ++ " (" ++ toString a.idx ++ "/" ++
              toString a.total ++ "): " ++ e,
             [FetchEvent.metadataFetch a.video_url, FetchEvent.streamDownload a.video_url])

/-- A concrete fetch environment in which the metadata lookup succeeds
with title `"T"` and the target file already exists. -/
def envSkip : FetchEnv :=
  ⟨fun _ => Except.ok (some "T"), fun _ => true, fun _ => Except.ok ()⟩

/-- Concrete arguments: video 1 of 2. -/
def argsSkip : FetchArgs := ⟨"u", "mp3", "d", 1, 2⟩

/-- The playlist info dict consumed by `get_playlist_videos`: an optional
`entries` key (each entry either falsy/`None` — an unavailable video
skipped by `ignoreerrors` — or a dict whose `id` is read) and an optional
`title` key. -/
structure PlaylistInfo where
  entries : Option (List (Option String))
  title : Option String

/-- Environment of the resolver: `extract_info(playlist_url,
download=False)` either raises, returns `None` (possible under
`ignoreerrors`; the later `'entries' not in playlist_info` then raises
`TypeError`, caught by the same `except`), or returns an info dict. -/
structure ResolveEnv where
  extractInfo : String → Except String (Option PlaylistInfo)

/-- `get_playlist_videos` from `src/YoutubeDownloader.py` (lines 158-185):
on any exception return `([], "")`; if the info has no `entries` key
return `([], "")`; otherwise collect
`f"https://www.youtube.com/watch?v={entry['id']}"` for every truthy entry
and return them with `playlist_info.get('title', 'YouTube Playlist')`. -/
def get_playlist_videos (env : ResolveEnv) (playlist_url : String) :
    List String × String :=
  match env.extractInfo playlist_url with
  | Except.error _ => ([], "")
  | Except.ok none => ([], "")
  | Except.ok (some info) =>
      match info.entries with
      | none => ([], "")
      | some entries =>
          let videos := entries.filterMap
            (fun e => e.map (fun id => "https://www.youtube.com/watch?v=" ++ id))
          (videos, info.title.getD "YouTube Playlist")

/-- Events emitted by `download_thread` towards the GUI: `log` is
`log_signal.emit`, `finished` is `finished_signal.emit`. -/
inductive OrchEvent
  | log (line : String)
  | finished (title : String) (total : Nat)
  deriving DecidableEq

/-- Whether an event is the terminal summary callback. -/
def isFinished : OrchEvent → Bool
  | OrchEvent.finished _ _ => true
  | OrchEvent.log _ => false

/-- One run of `download_thread`: the events emitted, in order, and the
fetch calls dispatched to the pool. -/
structure OrchRun where
  events : List OrchEvent
  dispatched : List FetchArgs
  deriving DecidableEq

/-- The `args_list` built in `download_thread`:
`[(video_url, fmt, dir_path, idx, total) for idx, video_url in
enumerate(videos, start=1)]`. -/
def args_list (videos : List String) (fmt dir_path : String) : List FetchArgs :=
  (List.enumFrom 1 videos).map
    (fun p => FetchArgs.mk p.2 fmt dir_path p.1 videos.length)

/-- `DownloaderWidget.download_thread` from `src/YoutubeDownloader.py`
(lines 293-321). `sched` models the completion order of
`pool.imap_unordered` (theorem hypotheses require it to be a permutation);
everything else is the straight-line code: log `"Loading playlist..."`,
resolve, on an empty video list log `"No videos found in playlist."` and
emit `finished("", 0)`; otherwise log the found/starting lines, stream one
log line per completed fetch, log `"Download thread finished."` and emit
`finished(playlist_title, total)`. -/
def download_thread (renv : ResolveEnv) (fenv : FetchEnv)
    (sched : List String → List String)
    (url fmt dir_path : String) (processes : Nat) : OrchRun :=
  let r := get_playlist_videos renv url
  let videos := r.1
  let playlist_title := r.2
  if videos.isEmpty then
    ⟨[OrchEvent.log "Loading playlist...",
      OrchEvent.log "No videos found in playlist.",
      OrchEvent.finished "" 0], []⟩
  else
    let total := videos.length
    let args := args_list videos fmt dir_path
    let results := args.map (fun a => (download_video fenv a).1)
    ⟨[OrchEvent.log "Loading playlist...",
      OrchEvent.log ("Found " ++ toString total ++ " videos in playlist: " ++ playlist_title),
      OrchEvent.log ("Starting download with " ++ toString processes ++ " processes...")]
     ++ (sched results).map OrchEvent.log
     ++ [OrchEvent.log "Download thread finished.",
         OrchEvent.finished playlist_title total],
     args⟩

/-- Filesystem actions of `start_download` (lines 266-291). -/
inductive FsAction
  | makedirs (path : String)
  | remove (path : String)
  deriving DecidableEq

/-- One run of the non-GUI part of `start_download`. -/
structure StartRun where
  logs : List String
  fsActions : List FsAction
  threadStarted : Bool
  deriving DecidableEq

/-- Python `str.strip()` with no argument: drop leading and trailing
whitespace. -/
def pyStrip (s : String) : String :=
  ⟨((s.data.dropWhile Char.isWhitespace).reverse.dropWhile Char.isWhitespace).reverse⟩

/-- `DownloaderWidget.start_download` from `src/YoutubeDownloader.py`
(lines 266-291), GUI widgets elided: strip the URL and bail out on an
empty one; otherwise log `"Starting download..."`, create the destination
directory when it does not exist, and start the background thread.
`dirContents` is the listing of the destination directory; the code never
reads it and performs no deletions. -/
def start_download (urlText : String) (dirContents : List String)
    (dirExists : Bool) (dir_path : String) : StartRun :=
  let url := pyStrip urlText
  if url = "" then
    ⟨["Please enter a valid URL."], [], false⟩
  else
    ⟨["Starting download..."],
     if dirExists then [] else [FsAction.makedirs dir_path],
     true⟩

/-- Concrete resolver environment that raises. -/
def renvErr : ResolveEnv := ⟨fun _ => Except.error "boom"⟩

/-- Concrete resolver environment: `entries` present but every entry
unavailable (`None`), title `"My List"`. -/
def renvEmpty : ResolveEnv :=
  ⟨fun _ => Except.ok (some ⟨some [none], some "My List"⟩)⟩

/-- Concrete resolver environment: two available entries `a` and `b`
(and one unavailable), title `"My List"`. -/
def renvTwo : ResolveEnv :=
  ⟨fun _ => Except.ok (some ⟨some [some "a", none, some "b"], some "My List"⟩)⟩

/-- Concrete fetch environment in which every download succeeds and no
target exists yet. -/
def envFresh : FetchEnv :=
  ⟨fun _ => Except.ok (some "T"), fun _ => false, fun _ => Except.ok ()⟩

theorem reSubRemove_eq_filter (l : List Char) :
    reSubRemove l = l.filter (fun c => !reservedChar c) := by
  induction l with
  | nil => rfl
  | cons c cs ih =>
    by_cases h : reservedChar c
    · simp [reSubRemove, h, List.filter, ih]
    · simp [reSubRemove, h, List.filter, ih]

theorem sanitize_data (name : String) :
    (sanitize_filename name).data = name.data.filter (fun c => !reservedChar c) := by
  simp [sanitize_filename, reSubRemove_eq_filter]

/-- C6: `sanitize_filename` returns the input with exactly the characters
`\ / * ? : " < > |` removed: no character of that set survives, the result
is a subsequence of the input (all other characters in their original
order), each character outside the set occurs in the output exactly as
often as in the input, and the function is total and pure (it is a Lean
function). -/
theorem C6_sanitize_removes_reserved (name : String) :
    (∀ c, c ∈ (sanitize_filename name).data → reservedChar c = false) ∧
    (sanitize_filename name).data.Sublist name.data ∧
    (∀ c, reservedChar c = false →
      (sanitize_filename name).data.count c = name.data.count c) := by
  refine ⟨?_, ?_, ?_⟩
  · intro c hc
    rw [sanitize_data] at hc
    have := List.of_mem_filter hc
    simpa using this
  · rw [sanitize_data]
    exact List.filter_sublist _
  · intro c hc
    rw [sanitize_data]
    rw [List.count_filter]
    simp [hc]

/-- C7: the sanitizer is idempotent: its output contains none of the
reserved characters, a string already free of them is returned unchanged,
and hence sanitizing twice equals sanitizing once. -/
theorem C7_sanitize_idempotent (s : String) :
    (∀ c, c ∈ (sanitize_filename s).data → reservedChar c = false) ∧
    ((∀ c, c ∈ s.data → reservedChar c = false) → sanitize_filename s = s) ∧
    sanitize_filename (sanitize_filename s) = sanitize_filename s := by
  refine ⟨?_, ?_, ?_⟩
  · intro c hc
    rw [sanitize_data] at hc
    simpa using List.of_mem_filter hc
  · intro hclean
    have : s.data.filter (fun c => !reservedChar c) = s.data := by
      apply List.filter_eq_self.mpr
      intro c hc
      simp [hclean c hc]
    apply String.ext
    rw [sanitize_data, this]
  · have h1 : ∀ c, c ∈ (sanitize_filename s).data → reservedChar c = false := by
      intro c hc
      rw [sanitize_data] at hc
      simpa using List.of_mem_filter hc
    apply String.ext
    rw [sanitize_data]
    apply List.filter_eq_self.mpr
    intro c hc
    simp [h1 c hc]

/-- Witness for C7 at a concrete clean string. -/
theorem C7_witness :
    (∀ c, c ∈ "abc".data → reservedChar c = false) ∧ sanitize_filename "abc" = "abc" :=
  ⟨by decide, (C7_sanitize_idempotent "abc").2.1 (by decide)⟩

theorem map_snd_enumFrom (n : Nat) (l : List String) :
    (List.enumFrom n l).map Prod.snd = l := by
  induction l generalizing n with
  | nil => rfl
  | cons a l ih => simp [List.enumFrom, ih]

theorem length_enumFrom (n : Nat) (l : List String) :
    (List.enumFrom n l).length = l.length := by
  induction l generalizing n with
  | nil => rfl
  | cons a l ih => simp [List.enumFrom, ih]

theorem args_list_map_url (videos : List String) (fmt dir_path : String) :
    (args_list videos fmt dir_path).map (fun a => a.video_url) = videos := by
  simp only [args_list, List.map_map]
  have : ((fun a => FetchArgs.video_url a) ∘ fun p : Nat × String =>
      FetchArgs.mk p.2 fmt dir_path p.1 videos.length) = Prod.snd := by
    funext p; rfl
  rw [this, map_snd_enumFrom]

theorem args_list_length (videos : List String) (fmt dir_path : String) :
    (args_list videos fmt dir_path).length = videos.length := by
  simp [args_list, length_enumFrom]

theorem filter_isFinished_map_log (l : List String) :
    (l.map OrchEvent.log).filter (fun ev => isFinished ev) = [] := by
  induction l with
  | nil => rfl
  | cons a l ih => simp [isFinished, ih]

/-- C1: for a playlist resolving to `N ≥ 1` videos and any completion
order of the pool, the events of `download_thread` are exactly the fixed
framing lines around one log line per completed fetch (a permutation of
the per-video results, `N` of them), followed by the terminal summary
`finished(playlist_title, N)`, which therefore occurs exactly once and
strictly after every fetch result has been streamed. -/
theorem C1_run_shape (renv : ResolveEnv) (fenv : FetchEnv)
    (sched : List String → List String)
    (url fmt dir_path : String) (processes : Nat)
    (videos : List String) (playlist_title : String) (N : Nat)
    (hres : get_playlist_videos renv url = (videos, playlist_title))
    (hN : videos.length = N) (hpos : 1 ≤ N)
    (hsched : ∀ l : List String, List.Perm (sched l) l) :
    (download_thread renv fenv sched url fmt dir_path processes).events =
      [OrchEvent.log "Loading playlist...",
       OrchEvent.log ("Found " ++ toString N ++ " videos in playlist: " ++ playlist_title),
       OrchEvent.log ("Starting download with " ++ toString processes ++ " processes...")]
      ++ ((sched ((args_list videos fmt dir_path).map
            (fun a => (download_video fenv a).1))).map OrchEvent.log)
      ++ [OrchEvent.log "Download thread finished.",
          OrchEvent.finished playlist_title N] ∧
    (sched ((args_list videos fmt dir_path).map
        (fun a => (download_video fenv a).1))).length = N ∧
    List.Perm
      (sched ((args_list videos fmt dir_path).map (fun a => (download_video fenv a).1)))
      ((args_list videos fmt dir_path).map (fun a => (download_video fenv a).1)) ∧
    (download_thread renv fenv sched url fmt dir_path processes).events.filter
        (fun ev => isFinished ev) = [OrchEvent.finished playlist_title N] ∧
    (download_thread renv fenv sched url fmt dir_path processes).dispatched =
      args_list videos fmt dir_path ∧
    (download_thread renv fenv sched url fmt dir_path processes).dispatched.length = N := by
  have hne : videos.isEmpty = false := by
    cases videos with
    | nil => simp at hN; omega
    | cons a l => rfl
  have hlen : (sched ((args_list videos fmt dir_path).map
      (fun a => (download_video fenv a).1))).length = N := by
    rw [(hsched _).length_eq, List.length_map, args_list_length, hN]
  refine ⟨?_, hlen, hsched _, ?_, ?_, ?_⟩
  · simp [download_thread, hres, hne, hN]
  · simp [download_thread, hres, hne, hN, List.filter_append,
      filter_isFinished_map_log, isFinished]
  · simp [download_thread, hres, hne]
  · simp [download_thread, hres, hne, args_list_length, hN]

/-- Witness for C1: a concrete playlist of two available videos, identity
completion order; the summary fires once with total 2. -/
theorem C1_witness :
    get_playlist_videos renvTwo "purl" =
      (["https://www.youtube.com/watch?v=a", "https://www.youtube.com/watch?v=b"],
       "My List") ∧
    (download_thread renvTwo envFresh id "purl" "mp3" "d" 2).events.filter
      (fun ev => isFinished ev) = [OrchEvent.finished "My List" 2] :=
  ⟨by decide,
   (C1_run_shape renvTwo envFresh id "purl" "mp3" "d" 2
      ["https://www.youtube.com/watch?v=a", "https://www.youtube.com/watch?v=b"]
      "My List" 2 (by decide) rfl (by omega)
      (fun l => List.Perm.refl l)).2.2.2.1⟩

/-- C2 counterexample: with the target file already on disk
(`envSkip.fileExists` is `true`), `download_video` returns the skip
outcome, yet its event trace contains the metadata network call
`extract_info` — the code always fetches metadata before the existence
check, so "without performing any network call" is false. -/
theorem C2_counterexample :
    (download_video envSkip argsSkip).1 = "Skipped T 1/2" ∧
    (download_video envSkip argsSkip).2 = [FetchEvent.metadataFetch "u"] ∧
    ¬ (download_video envSkip argsSkip).2 = [] := by
  refine ⟨by decide, by decide, by decide⟩

/-- C2 amended: if the metadata lookup succeeds and the target file
`output_path / sanitize(title) . fmt` already exists, `download_video`
returns the skip outcome, performs exactly the one metadata network call
and no stream download, and hence makes no change to the filesystem (the
stream download with its postprocessor is the only file-writing step). -/
theorem C2_skip_no_download (env : FetchEnv) (a : FetchArgs) (t : Option String)
    (hinfo : env.extractInfo a.video_url = Except.ok t)
    (hex : env.fileExists (target_file a.output_path (t.getD "video") a.fmt) = true) :
    (download_video env a).1 =
      "Skipped " ++ t.getD "video" ++ " " ++ toString a.idx ++ "/" ++ toString a.total ∧
    (download_video env a).2 = [FetchEvent.metadataFetch a.video_url] ∧
    ∀ ev ∈ (download_video env a).2, isStreamDownload ev = false := by
  refine ⟨?_, ?_, ?_⟩
  · simp [download_video, hinfo, hex]
  · simp [download_video, hinfo, hex]
  · intro ev hev
    simp [download_video, hinfo, hex] at hev
    simp [hev, isStreamDownload]

/-- Witness for C2 amended at the concrete skip environment. -/
theorem C2_witness :
    envSkip.extractInfo "u" = Except.ok (some "T") ∧
    envSkip.fileExists (target_file "d" "T" "mp3") = true ∧
    (download_video envSkip argsSkip).2 = [FetchEvent.metadataFetch "u"] :=
  ⟨rfl, rfl, (C2_skip_no_download envSkip argsSkip (some "T") rfl rfl).2.1⟩

/-- C3: any exception raised inside `download_video` — from the metadata
lookup or from the download/transcode step — is converted into the
`"Error processing <url> (...): <message>"` outcome carrying the video's
URL and the error message, never escaping (the function is total in the
model); and the orchestrator dispatches each resolved video exactly once
(no retry) and still emits its terminal events whatever the per-video
outcomes are, so one video's failure aborts neither the other videos nor
the run. -/
theorem C3_errors_become_data (env : FetchEnv) (a : FetchArgs) :
    (∀ e, env.extractInfo a.video_url = Except.error e →
      (download_video env a).1 =
        "Error processing " ++ a.video_url ++ " (" ++ toString a.idx ++ "/" ++
          toString a.total ++ "): " ++ e) ∧
    (∀ t e, env.extractInfo a.video_url = Except.ok t →
      env.fileExists (target_file a.output_path (t.getD "video") a.fmt) = false →
      env.download a.video_url = Except.error e →
      (download_video env a).1 =
        "Error processing " ++ a.video_url ++ " (" ++ toString a.idx ++ "/" ++
          toString a.total ++ "): " ++ e) ∧
    (∀ renv sched url fmt dir_path processes,
      (download_thread renv env sched url fmt dir_path processes).dispatched.map
          (fun x => x.video_url) = (get_playlist_videos renv url).1 ∧
      ((get_playlist_videos renv url).1 = [] →
        (download_thread renv env sched url fmt dir_path processes).events.filter
          (fun ev => isFinished ev) = [OrchEvent.finished "" 0]) ∧
      (¬ (get_playlist_videos renv url).1 = [] →
        (download_thread renv env sched url fmt dir_path processes).events.filter
            (fun ev => isFinished ev) =
          [OrchEvent.finished (get_playlist_videos renv url).2
            (get_playlist_videos renv url).1.length])) := by
  refine ⟨?_, ?_, ?_⟩
  · intro e herr
    simp [download_video, herr]
  · intro t e hinfo hex hdl
    simp [download_video, hinfo, hex, hdl]
  · intro renv sched url fmt dir_path processes
    by_cases hv : (get_playlist_videos renv url).1 = []
    · have hne : (get_playlist_videos renv url).1.isEmpty = true := by
        simp [hv]
      refine ⟨?_, ?_, ?_⟩
      · simp [download_thread, hne, hv]
      · intro _
        simp [download_thread, hne, isFinished]
      · intro h; exact absurd hv h
    · have hne : (get_playlist_videos renv url).1.isEmpty = false := by
        simp [hv]
      refine ⟨?_, ?_, ?_⟩
      · simp [download_thread, hne, args_list_map_url]
      · intro h; exact absurd h hv
      · intro _
        simp [download_thread, hne, List.filter_append,
          filter_isFinished_map_log, isFinished]

/-- Witness for C3: a failing metadata lookup yields the error outcome. -/
theorem C3_witness :
    FetchEnv.extractInfo ⟨fun _ => Except.error "net down", fun _ => false,
        fun _ => Except.ok ()⟩ "u" = Except.error "net down" ∧
    (download_video ⟨fun _ => Except.error "net down", fun _ => false,
        fun _ => Except.ok ()⟩ argsSkip).1 = "Error processing u (1/2): net down" :=
  ⟨rfl,
   (C3_errors_become_data ⟨fun _ => Except.error "net down", fun _ => false,
      fun _ => Except.ok ()⟩ argsSkip).1 "net down" rfl⟩

/-- C4: when the resolver's `extract_info` raises, `get_playlist_videos`
returns `([], "")`, so `download_thread` emits the failure summary
`finished("", 0)` (exactly once) and dispatches no fetch call at all. -/
theorem C4_resolver_failure (renv : ResolveEnv) (fenv : FetchEnv)
    (sched : List String → List String)
    (url fmt dir_path : String) (processes : Nat) (e : String)
    (herr : renv.extractInfo url = Except.error e) :
    (download_thread renv fenv sched url fmt dir_path processes).dispatched = [] ∧
    (download_thread renv fenv sched url fmt dir_path processes).events =
      [OrchEvent.log "Loading playlist...",
       OrchEvent.log "No videos found in playlist.",
       OrchEvent.finished "" 0] ∧
    (download_thread renv fenv sched url fmt dir_path processes).events.filter
      (fun ev => isFinished ev) = [OrchEvent.finished "" 0] := by
  have hres : get_playlist_videos renv url = ([], "") := by
    simp [get_playlist_videos, herr]
  refine ⟨?_, ?_, ?_⟩ <;> simp [download_thread, hres, isFinished]

/-- Witness for C4 at the raising resolver environment. -/
theorem C4_witness :
    renvErr.extractInfo "purl" = Except.error "boom" ∧
    (download_thread renvErr envSkip id "purl" "mp3" "d" 2).dispatched = [] :=
  ⟨rfl, (C4_resolver_failure renvErr envSkip id "purl" "mp3" "d" 2 "boom" rfl).1⟩

/-- C5 counterexample: the destination directory already exists and
contains a leftover temporary-format file, yet `start_download` performs
no filesystem action at all — no deletion happens and no deletion is
logged. The cleanup step the claim describes does not exist in this
source. -/
theorem C5_counterexample :
    start_download "u" ["leftover.webm"] true "d" =
      ⟨["Starting download..."], [], true⟩ ∧
    ¬ FsAction.remove "d/leftover.webm" ∈
        (start_download "u" ["leftover.webm"] true "d").fsActions := by
  refine ⟨by decide, by decide⟩

/-- C5 amended: for every non-empty (after stripping) URL,
`start_download` only ensures the destination directory exists — creating
it when absent, doing nothing when present — and never deletes anything
nor logs a deletion, whatever the directory contains. -/
theorem C5_no_cleanup (urlText : String) (dirContents : List String)
    (dirExists : Bool) (dir_path : String)
    (h : ¬ pyStrip urlText = "") :
    (start_download urlText dirContents dirExists dir_path).fsActions =
      (if dirExists then [] else [FsAction.makedirs dir_path]) ∧
    (∀ p, ¬ FsAction.remove p ∈
        (start_download urlText dirContents dirExists dir_path).fsActions) ∧
    (start_download urlText dirContents dirExists dir_path).logs =
      ["Starting download..."] := by
  refine ⟨?_, ?_, ?_⟩
  · simp [start_download, h]
  · intro p hp
    cases dirExists with
    | true => simp [start_download, h] at hp
    | false => simp [start_download, h] at hp
  · simp [start_download, h]

/-- Witness for C5 amended at a concrete run over an existing directory. -/
theorem C5_witness :
    ¬ (pyStrip "u" = "") ∧
    (start_download "u" ["a.mp3"] true "d").fsActions = (if true then [] else
      [FsAction.makedirs "d"]) :=
  ⟨by decide, (C5_no_cleanup "u" ["a.mp3"] true "d" (by decide)).1⟩

/-- C8: `get_playlist_videos` is total at its boundary: on a raised
exception, on `extract_info` returning `None`, or on an info dict without
an `entries` key, it returns `([], "")`; and whenever the returned video
list is empty — including a successfully resolved playlist whose entries
are all unavailable — `download_thread` emits exactly the same fixed
failure events with summary `("", 0)` and dispatches nothing, so the
resolved title, if any, is discarded and the two cases are
indistinguishable to the orchestrator. -/
theorem C8_resolver_totalized (env : ResolveEnv) (url : String) :
    (∀ e, env.extractInfo url = Except.error e →
      get_playlist_videos env url = ([], "")) ∧
    (env.extractInfo url = Except.ok none →
      get_playlist_videos env url = ([], "")) ∧
    (∀ info, env.extractInfo url = Except.ok (some info) → info.entries = none →
      get_playlist_videos env url = ([], "")) ∧
    (∀ (fenv : FetchEnv) (sched : List String → List String)
        (fmt dir_path : String) (processes : Nat),
      (get_playlist_videos env url).1 = [] →
      download_thread env fenv sched url fmt dir_path processes =
        ⟨[OrchEvent.log "Loading playlist...",
          OrchEvent.log "No videos found in playlist.",
          OrchEvent.finished "" 0], []⟩) := by
  refine ⟨?_, ?_, ?_, ?_⟩
  · intro e herr
    simp [get_playlist_videos, herr]
  · intro hnone
    simp [get_playlist_videos, hnone]
  · intro info hok hent
    simp [get_playlist_videos, hok, hent]
  · intro fenv sched fmt dir_path processes hv
    have hne : (get_playlist_videos env url).1.isEmpty = true := by simp [hv]
    simp [download_thread, hne]

/-- Witness for C8: a playlist whose entries are all unavailable resolves
to `([], "My List")`, yet the orchestrator emits the failure events and
the title `"My List"` is discarded. -/
theorem C8_witness :
    get_playlist_videos renvEmpty "purl" = ([], "My List") ∧
    download_thread renvEmpty envSkip id "purl" "mp3" "d" 2 =
      ⟨[OrchEvent.log "Loading playlist...",
        OrchEvent.log "No videos found in playlist.",
        OrchEvent.finished "" 0], []⟩ :=
  ⟨by decide,
   (C8_resolver_totalized renvEmpty "purl").2.2.2 envSkip id "mp3" "d" 2 (by decide)⟩

/-- C9 counterexample: at the concrete skip environment the streamed line
is `"Skipped T 1/2"`, not `"Skipped T"` — the code appends the
` idx/total` progress suffix that the claim's line format omits. -/
theorem C9_counterexample :
    (download_video envSkip argsSkip).1 = "Skipped T 1/2" ∧
    ¬ (download_video envSkip argsSkip).1 = "Skipped T" := by
  refine ⟨by decide, by decide⟩

/-- C9 amended: every completed fetch yields exactly one line whose
content is pinned to the run: `"Skipped X i/N"` when the target of the
resolved title `X` exists, `"Downloaded X i/N"` when it does not and the
download succeeds, `"Error processing U (i/N): E"` with the video's URL
`U` and the raised message `E` when a step raises (index `i` of `N`); and
`download_thread` streams exactly one log event per completed fetch — the
streamed block is a permutation of the per-video result lines, one per
dispatched call, between the fixed framing events. -/
theorem C9_line_formats (env : FetchEnv) (a : FetchArgs) :
    (∀ t, env.extractInfo a.video_url = Except.ok t →
      env.fileExists (target_file a.output_path (t.getD "video") a.fmt) = true →
      (download_video env a).1 =
        "Skipped " ++ t.getD "video" ++ " " ++ toString a.idx ++ "/" ++
          toString a.total) ∧
    (∀ t, env.extractInfo a.video_url = Except.ok t →
      env.fileExists (target_file a.output_path (t.getD "video") a.fmt) = false →
      env.download a.video_url = Except.ok () →
      (download_video env a).1 =
        "Downloaded " ++ t.getD "video" ++ " " ++ toString a.idx ++ "/" ++
          toString a.total) ∧
    (∀ e, env.extractInfo a.video_url = Except.error e →
      (download_video env a).1 =
        "Error processing " ++ a.video_url ++ " (" ++ toString a.idx ++ "/" ++
          toString a.total ++ "): " ++ e) ∧
    (∀ t e, env.extractInfo a.video_url = Except.ok t →
      env.fileExists (target_file a.output_path (t.getD "video") a.fmt) = false →
      env.download a.video_url = Except.error e →
      (download_video env a).1 =
        "Error processing " ++ a.video_url ++ " (" ++ toString a.idx ++ "/" ++
          toString a.total ++ "): " ++ e) ∧
    (∀ (renv : ResolveEnv) (sched : List String → List String)
        (url fmt dir_path : String) (processes : Nat),
      (∀ l : List String, List.Perm (sched l) l) →
      ¬ (get_playlist_videos renv url).1 = [] →
      (download_thread renv env sched url fmt dir_path processes).events =
        [OrchEvent.log "Loading playlist...",
         OrchEvent.log ("Found " ++ toString (get_playlist_videos renv url).1.length ++
           " videos in playlist: " ++ (get_playlist_videos renv url).2),
         OrchEvent.log ("Starting download with " ++ toString processes ++
           " processes...")]
        ++ ((sched ((args_list (get_playlist_videos renv url).1 fmt dir_path).map
              (fun x => (download_video env x).1))).map OrchEvent.log)
        ++ [OrchEvent.log "Download thread finished.",
            OrchEvent.finished (get_playlist_videos renv url).2
              (get_playlist_videos renv url).1.length] ∧
      List.Perm
        (sched ((args_list (get_playlist_videos renv url).1 fmt dir_path).map
          (fun x => (download_video env x).1)))
        ((args_list (get_playlist_videos renv url).1 fmt dir_path).map
          (fun x => (download_video env x).1)) ∧
      (sched ((args_list (get_playlist_videos renv url).1 fmt dir_path).map
          (fun x => (download_video env x).1))).length =
        (download_thread renv env sched url fmt dir_path processes).dispatched.length) := by
  refine ⟨?_, ?_, ?_, ?_, ?_⟩
  · intro t hinfo hex
    simp [download_video, hinfo, hex]
  · intro t hinfo hex hdl
    simp [download_video, hinfo, hex, hdl]
  · intro e herr
    simp [download_video, herr]
  · intro t e hinfo hex hdl
    simp [download_video, hinfo, hex, hdl]
  · intro renv sched url fmt dir_path processes hsched hv
    have hne : (get_playlist_videos renv url).1.isEmpty = false := by simp [hv]
    refine ⟨?_, hsched _, ?_⟩
    · simp [download_thread, hne]
    · rw [(hsched _).length_eq, List.length_map]
      simp [download_thread, hne]

/-- Witness for C9 amended: at the fresh environment (title `"T"`, no
existing target, successful download) the streamed line is exactly
`"Downloaded T 1/2"`, the resolved title with the progress suffix. -/
theorem C9_witness :
    envFresh.extractInfo "u" = Except.ok (some "T") ∧
    envFresh.fileExists (target_file "d" "T" "mp3") = false ∧
    envFresh.download "u" = Except.ok () ∧
    (download_video envFresh argsSkip).1 = "Downloaded T 1/2" := by
  refine ⟨rfl, rfl, rfl, ?_⟩
  have h := (C9_line_formats envFresh argsSkip).2.1 (some "T") rfl rfl rfl
  rw [h]
  decide
